import Mathlib

/-!
Verification development for the OTT compliance-events pipeline.

Shallow embedding of the real-time risk-scoring engine:
  * `src/app/regulations.py`         (regulation engine)
  * `src/app/user_segments.py`       (user segmentation)
  * `src/app/adaptive_thresholds.py` (adaptive threshold engine)
  * `src/app/geoip_validator.py`     (geo-consistency validator)
  * `src/app/network_analysis.py`    (network fraud-ring detector)
  * `src/app/ml_models.py`           (ensemble anomaly detector)
  * `src/app/compliance_rules.py`    (risk orchestrator, `evaluate_compliance`)

Modelling conventions:
  * Python floats/ints are modelled as `ℚ`/`ℤ` (all constants in the engine are
    small decimal literals, so the rational model is exact for everything the
    theorems below touch).
  * Python `None`-able values are `Option`; Python truthiness is modelled
    explicitly (`strTruthy`, `pyTruthy`).
  * Python dictionaries whose exact key set matters (because callers use
    `dict.get` with defaults on keys that may be absent) are modelled as
    association lists of `PyVal`s, looked up by `pyDictGet`.
  * Python's keyword-argument call binding is modelled by `pyCallOk`: a call
    binds iff the positional arguments are a prefix of the parameter list and
    the keyword names cover exactly the remaining parameters (none of the
    modelled signatures have defaults or `**kwargs`).  A call that does not
    bind raises `TypeError` before the callee body runs.
  * External effects (the geolocation source, the SQL database, scikit-learn
    numerics, `hash`, `datetime` parsing) are supplied by an `Env` of oracle
    functions; everything the repository itself computes is embedded
    concretely.
-/

namespace OTT

/-- Python truthiness of an optional string (`None` and `""` are falsy). -/
def strTruthy : Option String → Bool
  | none => false
  | some s => s ≠ ""

/-- Dynamic Python values, for dictionaries whose key sets matter. -/
inductive PyVal where
  | pnone
  | pbool (b : Bool)
  | pint (i : ℤ)
  | prat (q : ℚ)
  | pstr (s : String)
  | plist (l : List PyVal)
  | pdict (d : List (String × PyVal))

/-- `d.get(k, dflt)` on a Python dictionary. -/
def pyDictGet (d : List (String × PyVal)) (k : String) (dflt : PyVal) : PyVal :=
  match d.lookup k with
  | some v => v
  | none => dflt

/-- Python truthiness of a dynamic value. -/
def pyTruthy : PyVal → Bool
  | .pnone => false
  | .pbool b => b
  | .pint i => i ≠ 0
  | .prat q => q ≠ 0
  | .pstr s => s ≠ ""
  | .plist l => ¬ l.isEmpty
  | .pdict d => ¬ d.isEmpty

/-- Numeric reading of a dynamic value (the orchestrator only ever adds
numeric dictionary entries to the score; other constructors are unreachable
there and read as 0). -/
def pyRatOf : PyVal → ℚ
  | .pint i => (i : ℚ)
  | .prat q => q
  | .pbool b => if b then 1 else 0
  | _ => 0

/-- String items of a dynamic list value (used to read back a `flags` entry). -/
def pyStrList : PyVal → List String
  | .plist l => l.filterMap fun v => match v with | .pstr s => some s | _ => none
  | _ => []

/-- Python call binding: `params` are the callee's parameters (no defaults, no
`**kwargs` in any modelled signature), `npos` positional arguments bind the
first `npos` parameters, and the keyword names must then cover exactly the
remaining parameters.  `false` means the call raises `TypeError`. -/
def pyCallOk (params : List String) (npos : ℕ) (kwargs : List String) : Bool :=
  npos ≤ params.length &&
    (params.drop npos).all (fun p => kwargs.contains p) &&
    kwargs.all (fun k => (params.drop npos).contains k)

/-! ### Kernel-computable rational arithmetic

The `Rat` field operations of the ambient library are `@[irreducible]`, which
blocks evaluation inside `decide`.  The embedding therefore uses the
following operations, all built from the reducible smart constructor
`mkRat`; the `q*_eq`/`q*_iff` lemmas below prove each one equal to the
corresponding field operation, and the spec-facing theorems are stated with
the standard operations via those lemmas. -/

/-- Addition on `ℚ`. -/
def qAdd (a b : ℚ) : ℚ :=
  mkRat (a.num * b.den + b.num * a.den) (a.den * b.den)

/-- Subtraction on `ℚ`. -/
def qSub (a b : ℚ) : ℚ := qAdd a (-b)

/-- Multiplication on `ℚ`. -/
def qMul (a b : ℚ) : ℚ := mkRat (a.num * b.num) (a.den * b.den)

/-- Division on `ℚ` (`0` for a zero divisor, like `Rat.div`). -/
def qDiv (a b : ℚ) : ℚ :=
  mkRat (a.num * b.den * b.num.sign) (a.den * b.num.natAbs)

/-- Python `sum` (fold of `+` from `0`). -/
def qSum (l : List ℚ) : ℚ := l.foldl qAdd 0

/-- Strict order on `ℚ`, as a computable Bool. -/
def qLtB (a b : ℚ) : Bool := a.num * b.den < b.num * a.den

/-- Non-strict order on `ℚ`, as a computable Bool. -/
def qLeB (a b : ℚ) : Bool := a.num * b.den ≤ b.num * a.den

/-- Python `max` on two rationals. -/
def qMax (a b : ℚ) : ℚ := if qLeB a b then b else a

/-- Python `min` on two rationals. -/
def qMin (a b : ℚ) : ℚ := if qLeB a b then a else b

/-- Floor of a rational (denominators are positive). -/
def qFloor (q : ℚ) : ℤ := q.num.fdiv q.den

theorem qAdd_eq (a b : ℚ) : qAdd a b = a + b := by
  have ha : ((a.den : ℤ)) ≠ 0 := Int.natCast_ne_zero.2 a.den_nz
  have hb : ((b.den : ℤ)) ≠ 0 := Int.natCast_ne_zero.2 b.den_nz
  rw [qAdd, Rat.mkRat_eq_divInt]
  conv_rhs => rw [← Rat.num_divInt_den a, ← Rat.num_divInt_den b]
  rw [Rat.divInt_add_divInt _ _ ha hb]
  push_cast
  ring_nf

theorem qSub_eq (a b : ℚ) : qSub a b = a - b := by
  rw [qSub, qAdd_eq, sub_eq_add_neg]

theorem qMul_eq (a b : ℚ) : qMul a b = a * b := by
  rw [qMul, Rat.mkRat_eq_divInt]
  conv_rhs => rw [← Rat.num_divInt_den a, ← Rat.num_divInt_den b]
  rw [Rat.divInt_mul_divInt']
  push_cast
  ring_nf

theorem qDiv_eq (a b : ℚ) : qDiv a b = a / b := by
  rw [qDiv, Rat.mkRat_eq_divInt, div_eq_mul_inv, Rat.inv_def']
  conv_rhs => rw [← Rat.num_divInt_den a]
  rw [Rat.divInt_mul_divInt']
  rcases Int.lt_trichotomy b.num 0 with h | h | h
  · rw [Int.sign_eq_neg_one_of_neg h]
    push_cast
    rw [abs_of_neg h]
    rw [show a.num * (b.den : ℤ) * -1 = -(a.num * b.den) by ring,
        show (a.den : ℤ) * -b.num = -((a.den : ℤ) * b.num) by ring,
        Rat.divInt_neg, neg_neg]
  · rw [h]
    simp
  · rw [Int.sign_eq_one_of_pos h]
    push_cast
    rw [abs_of_pos h, mul_one]

theorem mkRat_div (n : ℤ) (d : ℕ) : mkRat n d = (n : ℚ) / (d : ℚ) := by
  rw [Rat.mkRat_eq_divInt, Rat.divInt_eq_div]
  norm_num

theorem qLtB_iff (a b : ℚ) : qLtB a b = true ↔ a < b := by
  rw [qLtB, decide_eq_true_eq, Rat.lt_def]

theorem qLeB_iff (a b : ℚ) : qLeB a b = true ↔ a ≤ b := by
  rw [qLeB, decide_eq_true_eq, Rat.le_def]

theorem qMax_eq (a b : ℚ) : qMax a b = max a b := by
  rw [qMax, max_def]
  by_cases h : a ≤ b
  · rw [if_pos ((qLeB_iff a b).2 h), if_pos h]
  · rw [if_neg (fun hh => h ((qLeB_iff a b).1 hh)), if_neg h]

theorem qMin_eq (a b : ℚ) : qMin a b = min a b := by
  rw [qMin, min_def]
  by_cases h : a ≤ b
  · rw [if_pos ((qLeB_iff a b).2 h), if_pos h]
  · rw [if_neg (fun hh => h ((qLeB_iff a b).1 hh)), if_neg h]

/-- Lower-casing as the source's `str.lower()` (ASCII data here). -/
def strLower (s : String) : String := ⟨s.data.map Char.toLower⟩

/-- Upper-casing as the source's `str.upper()` (ASCII data here). -/
def strUpper (s : String) : String := ⟨s.data.map Char.toUpper⟩

/-- Python `round(x, 2)` with ties to even, on the rational model. -/
def roundHalfEven (q : ℚ) : ℤ :=
  let n := qFloor q
  let f := qSub q (n : ℚ)
  if qLtB f (mkRat 1 2) then n
  else if qLtB (mkRat 1 2) f then n + 1
  else if n % 2 = 0 then n else n + 1

/-- `round(score, 2)` from the tail of `evaluate_compliance`. -/
def pyRound2 (q : ℚ) : ℚ := mkRat (roundHalfEven (qMul q 100)) 100

/-! ## Regulation engine — `src/app/regulations.py` -/

/-- `class Regulation(str, Enum)`. -/
inductive Regulation where
  | GDPR | CCPA | PIPL | PDPA | LGPD | POPIA | APRA | PIPEDA | KVKK | PDPL
deriving DecidableEq, Repr

/-- `.value` of the regulation enum. -/
def Regulation.value : Regulation → String
  | .GDPR => "GDPR" | .CCPA => "CCPA" | .PIPL => "PIPL" | .PDPA => "PDPA"
  | .LGPD => "LGPD" | .POPIA => "POPIA" | .APRA => "APRA"
  | .PIPEDA => "PIPEDA" | .KVKK => "KVKK" | .PDPL => "PDPL"

/-- `RegulationFramework.REGION_REGULATIONS`. -/
def REGION_REGULATIONS : List (String × List Regulation) :=
  [("EU", [.GDPR]), ("US", [.CCPA]), ("CA", [.CCPA]), ("CN", [.PIPL]),
   ("TH", [.PDPA]), ("BR", [.LGPD]), ("ZA", [.POPIA]), ("AU", [.APRA]),
   ("CA_FEDERAL", [.PIPEDA]), ("TR", [.KVKK]), ("SG", [.PDPL])]

/-- One row of `RegulationFramework.REGULATION_REQUIREMENTS`. -/
structure Requirements where
  consent_required : Bool
  data_minimization : Bool
  right_to_deletion : Bool
  right_to_access : Bool
  data_portability : Bool
  breach_notification_days : ℤ
  dpia_required : Bool
  dpo_required : Bool
  max_retention_years : ℤ
deriving DecidableEq, Repr

/-- `RegulationFramework.REGULATION_REQUIREMENTS` (every enum member has a
row, so `get_regulation_requirements` is total on `Regulation`). -/
def REGULATION_REQUIREMENTS : Regulation → Requirements
  | .GDPR => ⟨true, true, true, true, true, 72, true, true, 7⟩
  | .CCPA => ⟨true, true, true, true, true, 30, false, false, 1⟩
  | .PIPL => ⟨true, true, true, true, false, 30, true, true, 3⟩
  | .PDPA => ⟨true, true, true, true, false, 30, false, false, 5⟩
  | .LGPD => ⟨true, true, true, true, true, 30, true, true, 5⟩
  | .POPIA => ⟨true, true, true, true, false, 30, false, true, 5⟩
  | .APRA => ⟨true, true, true, true, false, 30, false, false, 7⟩
  | .PIPEDA => ⟨true, true, true, true, false, 30, false, false, 7⟩
  | .KVKK => ⟨true, true, true, true, true, 30, false, true, 5⟩
  | .PDPL => ⟨true, true, true, true, true, 30, false, true, 5⟩

/-- `RegulationFramework.get_regulations_for_region`. -/
def get_regulations_for_region (region_code : String) : List Regulation :=
  match REGION_REGULATIONS.lookup region_code with
  | some rs => rs
  | none => []

/-- The duck-typed `details` dictionary consumed by `check_violation`
(`dict.get` with a default on each field; only these six keys are ever read). -/
structure EventDetails where
  access_time_days : Option ℤ := none
  deletion_time_days : Option ℤ := none
  has_explicit_consent : Option Bool := none
  notification_time_days : Option ℤ := none
  retention_years : Option ℤ := none
  has_dpia : Option Bool := none
deriving DecidableEq, Repr

/-- Return value of `RegulationFramework.check_violation`. -/
structure ViolationResult where
  violation : Bool
  reason : String
  regulation : String
  action : String
deriving DecidableEq, Repr

/-- `RegulationFramework.check_violation`. -/
def check_violation (action : String) (regulation : Regulation)
    (details : EventDetails) : ViolationResult :=
  let requirement := REGULATION_REQUIREMENTS regulation
  let vr : Bool × String :=
    if action = "data_access" then
      if requirement.right_to_access then
        ((details.access_time_days.getD 0) > 30,
         "Access request not responded within 30 days")
      else (false, "")
    else if action = "data_deletion" then
      if requirement.right_to_deletion then
        ((details.deletion_time_days.getD 0) > 30,
         "Deletion request not completed within 30 days")
      else (false, "")
    else if action = "consent" then
      if requirement.consent_required then
        (¬ (details.has_explicit_consent.getD false),
         "Explicit consent required but not obtained")
      else (false, "")
    else if action = "breach_notification" then
      ((details.notification_time_days.getD 0) > requirement.breach_notification_days,
       "Breach notification exceeded " ++ toString requirement.breach_notification_days
         ++ " day limit")
    else if action = "data_retention" then
      ((details.retention_years.getD 0) > requirement.max_retention_years,
       "Data retention exceeds " ++ toString requirement.max_retention_years
         ++ " year limit")
    else if action = "dpia" then
      if requirement.dpia_required then
        (¬ (details.has_dpia.getD false),
         "Data Protection Impact Assessment required but not completed")
      else (false, "")
    else (false, "")
  { violation := vr.1, reason := vr.2,
    regulation := regulation.value, action := action }

/-- `ComplianceChecker._map_event_to_action` (`mapping.get(event_type)`). -/
def map_event_to_action (event_type : String) : Option String :=
  [("user_data_access", "data_access"),
   ("user_data_deletion", "data_deletion"),
   ("user_consent_change", "consent"),
   ("breach_detected", "breach_notification"),
   ("data_export", "data_portability")].lookup event_type

/-- Return value of `ComplianceChecker.evaluate_event_compliance`. -/
structure ComplianceResult where
  compliant : Bool
  violations : List ViolationResult
  applicable_regulations : List String
  compliance_risk_score : ℚ
deriving DecidableEq, Repr

/-- The `for regulation in regulations` loop of `evaluate_event_compliance`:
violations appended in iteration order, 0.5 risk per violation. -/
def complianceLoop (action : Option String) (details : EventDetails) :
    List Regulation → List ViolationResult × ℚ
  | [] => ([], 0)
  | r :: rs =>
    let rest := complianceLoop action details rs
    match action with
    | some a =>
      if a ≠ "" then
        let result := check_violation a r details
        if result.violation then (result :: rest.1, qAdd (mkRat 1 2) rest.2) else rest
      else rest
    | none => rest

/-- `ComplianceChecker.evaluate_event_compliance`.  (`user_id` is unused by the
source body apart from being received; kept for signature fidelity.) -/
def evaluate_event_compliance (_user_id : String) (event_type : String)
    (region : String) (event_details : EventDetails) : ComplianceResult :=
  let regulations := get_regulations_for_region region
  let action := map_event_to_action event_type
  let vs := complianceLoop action event_details regulations
  { compliant := vs.1.length = 0,
    violations := vs.1,
    applicable_regulations := regulations.map Regulation.value,
    compliance_risk_score := qMin 1 vs.2 }

/-! ## User segmentation — `src/app/user_segments.py` -/

/-- `class UserSegment(str, Enum)`. -/
inductive UserSegment where
  | power_user | normal_user | new_user | inactive_user | suspicious_user | dormant_user
deriving DecidableEq, Repr

/-- `.value` of the segment enum. -/
def UserSegment.value : UserSegment → String
  | .power_user => "power_user"
  | .normal_user => "normal_user"
  | .new_user => "new_user"
  | .inactive_user => "inactive_user"
  | .suspicious_user => "suspicious_user"
  | .dormant_user => "dormant_user"

/-- `UserSegmentationEngine.classify_user`.  The activity-spike comparison
`event_count_7d > event_count_30d / 4 * 7` is Python float arithmetic,
exact on `ℚ`. -/
def classify_user (_user_id : String) (event_count_30d event_count_7d
    violation_count_30d days_since_signup last_activity_days_ago : ℤ)
    (_avg_risk_score : ℚ) : UserSegment :=
  if event_count_30d > 500 ∧ violation_count_30d = 0 ∧ days_since_signup > 180 then
    .power_user
  else if days_since_signup < 30 ∧ event_count_30d < 50 then
    .new_user
  else if violation_count_30d > 5 ∨
      qLtB (qMul (qDiv (event_count_30d : ℚ) 4) 7) (event_count_7d : ℚ) then
    .suspicious_user
  else if last_activity_days_ago > 90 ∧ event_count_30d = 0 then
    .dormant_user
  else if last_activity_days_ago > 30 ∧ 10 < event_count_30d ∧ event_count_30d < 100 then
    .inactive_user
  else
    .normal_user

/-- One bundle of `UserSegmentationEngine.get_segment_risk_parameters`. -/
structure RiskParams where
  risk_threshold_high : ℚ
  risk_threshold_medium : ℚ
  anomaly_sensitivity : ℚ
  alert_channels : List String
  alert_severity_multiplier : ℚ
deriving DecidableEq, Repr

/-- `UserSegmentationEngine.get_segment_risk_parameters` (the `mkRat`
literals are the source's decimals: 0.8 = 4/5, 1.3 = 13/10, 1.2 = 6/5,
1.1 = 11/10, 1.5 = 3/2). -/
def get_segment_risk_parameters : UserSegment → RiskParams
  | .power_user => ⟨9, 6, mkRat 4 5, ["log"], mkRat 4 5⟩
  | .normal_user => ⟨8, 5, 1, ["log", "slack"], 1⟩
  | .new_user => ⟨7, 4, mkRat 13 10, ["log", "slack", "email"], mkRat 6 5⟩
  | .inactive_user => ⟨7, 4, mkRat 6 5, ["log", "slack"], mkRat 11 10⟩
  | .suspicious_user => ⟨6, 3, mkRat 3 2, ["log", "slack", "email", "sms"], mkRat 3 2⟩
  | .dormant_user => ⟨7, 4, mkRat 11 10, ["log", "slack"], mkRat 6 5⟩

/-- Stored profile row written by `update_user_profile`. -/
structure ProfileRec where
  segment : String
  event_count_30d : ℤ
  event_count_7d : ℤ
  violation_count_30d : ℤ
  days_since_signup : ℤ
  last_activity_days_ago : ℤ
  avg_risk_score : ℚ
  last_updated : String
deriving DecidableEq, Repr

/-- Python-dict update: replace in place if the key exists, else append. -/
def assocUpdate {α : Type} (m : List (String × α)) (k : String) (v : α) :
    List (String × α) :=
  if (m.lookup k).isSome then
    m.map fun p => if p.1 = k then (k, v) else p
  else m ++ [(k, v)]

/-- `UserSegmentationEngine.update_user_profile` (the `last_updated` ISO
string comes from `datetime.utcnow()`, supplied by the environment). -/
def update_user_profile (profiles : List (String × ProfileRec)) (user_id : String)
    (event_count_30d event_count_7d violation_count_30d days_since_signup
     last_activity_days_ago : ℤ) (avg_risk_score : ℚ) (nowIso : String) :
    UserSegment × List (String × ProfileRec) :=
  let segment := classify_user user_id event_count_30d event_count_7d
    violation_count_30d days_since_signup last_activity_days_ago avg_risk_score
  (segment,
   assocUpdate profiles user_id
     { segment := segment.value, event_count_30d, event_count_7d,
       violation_count_30d, days_since_signup, last_activity_days_ago,
       avg_risk_score, last_updated := nowIso })

/-! ## Adaptive thresholds — `src/app/adaptive_thresholds.py` -/

/-- One `{"scores": [...], "violations": [...]}` accumulator. -/
structure StatEntry where
  scores : List ℚ
  violations : List ℚ
deriving DecidableEq, Repr

/-- State of the `AdaptiveThresholds` singleton. -/
structure ThresholdState where
  time_of_day_stats : List (ℤ × StatEntry) := []
  region_stats : List (String × StatEntry) := []
  user_segment_stats : List (String × StatEntry) := []
deriving DecidableEq, Repr

/-- `AdaptiveThresholds._get_time_adjustment` (`hour_adjustments.get(hour,
0.0)`; the `mkRat` literals are the source decimals, e.g. 0.15 = 3/20,
0.20 = 1/5, 0.25 = 1/4, 0.30 = 3/10, 0.10 = 1/10, 0.05 = 1/20). -/
def get_time_adjustment (hour : ℤ) : ℚ :=
  match [((0:ℤ), mkRat 3 20), (1, mkRat 1 5), (2, mkRat 1 4), (3, mkRat 3 10),
         (4, mkRat 1 4), (5, mkRat 1 5), (6, mkRat 1 10), (7, mkRat 1 20),
         (8, 0), (9, mkRat (-1) 10), (10, mkRat (-3) 20), (11, mkRat (-3) 20),
         (12, mkRat (-3) 20), (13, mkRat (-1) 10), (14, mkRat (-1) 10),
         (15, mkRat (-1) 10), (16, mkRat (-1) 20), (17, 0),
         (18, mkRat 1 20), (19, mkRat 1 10), (20, mkRat 1 10), (21, mkRat 1 10),
         (22, mkRat 1 10), (23, mkRat 3 20)].lookup hour with
  | some a => a
  | none => 0

/-- `AdaptiveThresholds._get_region_adjustment`. -/
def get_region_adjustment (st : ThresholdState) (region : String) : ℚ :=
  match st.region_stats.lookup region with
  | none => 0
  | some stats =>
    if stats.violations.isEmpty then 0
    else
      let violation_rate : ℚ :=
        qDiv (stats.violations.length : ℚ) ((max stats.scores.length 1 : ℕ) : ℚ)
      if qLtB (mkRat 1 5) violation_rate then mkRat (-1) 5
      else if qLtB (mkRat 1 10) violation_rate then mkRat (-1) 10
      else 0

/-- `AdaptiveThresholds._get_segment_adjustment`
(`segment_adjustments.get(user_segment, 0.0)`; note the table key is
`"suspicious"`, not the enum value `"suspicious_user"`). -/
def get_segment_adjustment (user_segment : Option String) : ℚ :=
  match user_segment with
  | none => 0
  | some s =>
    match [("power_user", mkRat (-1) 5), ("normal_user", (0:ℚ)), ("new_user", mkRat 1 5),
           ("inactive_user", mkRat 3 20), ("suspicious", mkRat 3 10)].lookup s with
    | some a => a
    | none => 0

/-- `AdaptiveThresholds.get_dynamic_risk_threshold`. -/
def get_dynamic_risk_threshold (st : ThresholdState) (user_segment : Option String)
    (hour : ℤ) (region : String) : ℚ :=
  let base_threshold : ℚ := 8
  let time_adjustment := get_time_adjustment hour
  let region_adjustment := get_region_adjustment st region
  let segment_adjustment := get_segment_adjustment user_segment
  let final_threshold :=
    qMul base_threshold
      (qAdd (qAdd (qAdd 1 time_adjustment) region_adjustment) segment_adjustment)
  qMax 4 (qMin 12 final_threshold)

/-- Append to one `defaultdict` accumulator. -/
def statAppend {α : Type} [DecidableEq α] (m : List (α × StatEntry)) (k : α)
    (score : ℚ) (violation : Bool) : List (α × StatEntry) :=
  let cur := match m.lookup k with
    | some e => e
    | none => ⟨[], []⟩
  let upd : StatEntry :=
    ⟨cur.scores ++ [score], if violation then cur.violations ++ [score] else cur.violations⟩
  if (m.lookup k).isSome then
    m.map fun p => if p.1 = k then (k, upd) else p
  else m ++ [(k, upd)]

/-- `AdaptiveThresholds.record_event`. -/
def record_event (st : ThresholdState) (risk_score : ℚ) (is_violation : Bool)
    (user_segment : String) (hour : ℤ) (region : String) : ThresholdState :=
  { time_of_day_stats := statAppend st.time_of_day_stats hour risk_score is_violation,
    region_stats := statAppend st.region_stats region risk_score is_violation,
    user_segment_stats := statAppend st.user_segment_stats user_segment risk_score is_violation }

/-! ## Geo-consistency validator — `src/app/geoip_validator.py` -/

/-- Location record produced by `GeoIPValidator._get_ip_location`.  That
method catches all of its own failures and returns `{}` then, so the
environment's lookup oracle is total: a failed lookup is the record with every
field `none` (all reads below go through `dict.get` defaults). -/
structure LocationData where
  country_code : Option String := none
  country_name : Option String := none
  region : Option String := none
  city : Option String := none
  latitude : Option ℚ := none
  longitude : Option ℚ := none
  is_datacenter : Option Bool := none
deriving DecidableEq, Repr

/-- `location` sub-record of a successful validation. -/
structure GeoLocationView where
  country : String
  region : String
  city : String
  latitude : Option ℚ
  longitude : Option ℚ
deriving DecidableEq, Repr

/-- Return value of `GeoIPValidator._detect_vpn_proxy`. -/
structure VpnInfo where
  is_vpn : Bool
  provider : Option String := none
  likelihood : Option String := none
deriving DecidableEq, Repr

/-- Boolean character-list containment, for Python's `hub_city in city`. -/
def charSeqAt (needle hay : List Char) : Bool :=
  match hay with
  | [] => needle.isEmpty
  | _ :: t => (needle.isPrefixOf hay) || charSeqAt needle t

/-- Python `needle in hay` on strings. -/
def strIn (needle hay : String) : Bool := charSeqAt needle.toList hay.toList

/-- Python `s.startswith(pfx)`. -/
def strStarts (pfx s : String) : Bool := pfx.data.isPrefixOf s.data

/-- `GeoIPValidator._detect_vpn_proxy` (its own `except` branch is
unreachable in the model: every operation in the body is total). -/
def detect_vpn_proxy (location_data : LocationData) : VpnInfo :=
  let city := strLower (location_data.city.getD "")
  let country := location_data.country_code.getD ""
  let vpn_hubs := [("amsterdam", "NL"), ("bucharest", "RO"), ("hong kong", "HK"),
                   ("panama city", "PA"), ("singapore", "SG")]
  if vpn_hubs.any (fun h => strIn h.1 city || country = h.2) then
    { is_vpn := true, provider := some "Unknown VPN Service", likelihood := some "medium" }
  else { is_vpn := false }

/-- Return value of `GeoIPValidator.validate_ip_region_consistency` on its
success path.  Note the field names: the dictionary it builds has keys
`flags`, `score_adjustment`, `location`, `vpn_info`, `is_datacenter` — and
no `region_match` or `risk_score` key (see `GeoValidationResult.toDict`). -/
structure GeoValidationResult where
  flags : List String
  score_adjustment : ℚ
  location : GeoLocationView
  vpn_info : VpnInfo
  is_datacenter : Bool
deriving DecidableEq, Repr

/-- The literal dictionary returned by `validate_ip_region_consistency`
(source lines 78–90), as seen by a caller doing `dict.get`. -/
def GeoValidationResult.toDict (r : GeoValidationResult) : List (String × PyVal) :=
  [("flags", .plist (r.flags.map .pstr)),
   ("score_adjustment", .prat r.score_adjustment),
   ("location", .pdict
      [("country", .pstr r.location.country),
       ("region", .pstr r.location.region),
       ("city", .pstr r.location.city),
       ("latitude", match r.location.latitude with | some q => .prat q | none => .pnone),
       ("longitude", match r.location.longitude with | some q => .prat q | none => .pnone)]),
   ("vpn_info", .pdict
      ([("is_vpn", .pbool r.vpn_info.is_vpn)] ++
       (match r.vpn_info.provider with
        | some p => [("provider", .pstr p), ("likelihood",
            .pstr (r.vpn_info.likelihood.getD ""))]
        | none => []))),
   ("is_datacenter", .pbool r.is_datacenter)]

/-- IP→location cache of the `GeoIPValidator` singleton (FIFO eviction at
10000 entries, `_cache_location`). -/
def cacheLocation (cache : List (String × LocationData)) (ip : String)
    (l : LocationData) : List (String × LocationData) :=
  if cache.length ≥ 10000 then cache.drop 1 ++ [(ip, l)]
  else cache ++ [(ip, l)]

/-- `GeoIPValidator.validate_ip_region_consistency`.  `geoLoc` is the
environment's `_get_ip_location` (total, see `LocationData`); since every
sub-step is total, the function's own `except` branch (the
`geoip_lookup_failed` dictionary) is unreachable in the model. -/
def validate_ip_region_consistency (geoLoc : String → LocationData)
    (cache : List (String × LocationData)) (ip_address claimed_region : String) :
    GeoValidationResult × List (String × LocationData) :=
  let lookedUp := cache.lookup ip_address
  let location_data := match lookedUp with
    | some l => l
    | none => geoLoc ip_address
  let cache' := match lookedUp with
    | some _ => cache
    | none => cacheLocation cache ip_address location_data
  let actual_country := location_data.country_code.getD ""
  let mismatch : List String × ℚ :=
    if actual_country ≠ "" ∧ actual_country ≠ strUpper claimed_region then
      (["ip_region_mismatch"], 3)
    else ([], 0)
  let vpn_info := detect_vpn_proxy location_data
  let vpn : List String × ℚ := if vpn_info.is_vpn then (["vpn_detected"], 1) else ([], 0)
  let dc : List String × ℚ :=
    if location_data.is_datacenter.getD false then (["datacenter_ip"], 2) else ([], 0)
  ({ flags := mismatch.1 ++ vpn.1 ++ dc.1,
     score_adjustment := qAdd (qAdd mismatch.2 vpn.2) dc.2,
     location :=
       { country := actual_country,
         region := location_data.region.getD "",
         city := location_data.city.getD "",
         latitude := location_data.latitude,
         longitude := location_data.longitude },
     vpn_info := vpn_info,
     is_datacenter := location_data.is_datacenter.getD false },
   cache')

/-! ## Network fraud-ring detector — `src/app/network_analysis.py` -/

/-- Undirected `networkx.Graph` as an adjacency association list; keys are the
node set, neighbor lists are duplicate-free and symmetric by construction
(node `type` attributes are written by the source but never read). -/
abbrev NetGraph := List (String × List String)

/-- Neighbor list of a node. -/
def adjGet (g : NetGraph) (v : String) : List String :=
  match List.lookup v g with
  | some ns => ns
  | none => []

/-- `graph.has_node`. -/
def hasNode (g : NetGraph) (v : String) : Bool :=
  (List.lookup v g).isSome

/-- `graph.add_node` (no-op when present). -/
def addNode (g : NetGraph) (v : String) : NetGraph :=
  if hasNode g v then g else g ++ [(v, [])]

/-- Add `w` to `v`'s neighbor list (idempotent). -/
def addHalfEdge (g : NetGraph) (v w : String) : NetGraph :=
  g.map fun p =>
    if p.1 = v then (p.1, if p.2.contains w then p.2 else p.2 ++ [w]) else p

/-- `graph.add_edge` (auto-creates endpoints, ignores parallel edges). -/
def addEdge (g : NetGraph) (u v : String) : NetGraph :=
  addHalfEdge (addHalfEdge (addNode (addNode g u) v) u v) v u

/-- State of the `NetworkFraudDetector` singleton. -/
structure NetworkState where
  graph : NetGraph := []
  device_connections : List (String × List String) := []
  ip_connections : List (String × List String) := []
  payment_connections : List (String × List String) := []
  fraud_rings : List (List String) := []
deriving Repr

/-- `defaultdict(set)[key].add(user)` with insertion-ordered set model. -/
def connAdd (m : List (String × List String)) (key user : String) :
    List (String × List String) :=
  match List.lookup key m with
  | some users =>
    if users.contains user then m
    else m.map fun p => if p.1 = key then (p.1, p.2 ++ [user]) else p
  | none => m ++ [(key, [user])]

/-- `NetworkFraudDetector.add_user_event`. -/
def add_user_event (ns : NetworkState) (user_id : String)
    (device_id ip_address payment_method : Option String) : NetworkState :=
  let g0 := addNode ns.graph user_id
  let step := fun (st : NetworkState) (pfx : String) (v : Option String)
      (sel : NetworkState → List (String × List String))
      (put : NetworkState → List (String × List String) → NetworkState) =>
    if strTruthy v then
      let key := v.getD ""
      let st := put st (connAdd (sel st) key user_id)
      let edge_id := pfx ++ key
      { st with graph := addEdge (addNode st.graph edge_id) user_id edge_id }
    else st
  let st1 := step { ns with graph := g0 } "device:" device_id
    (·.device_connections) (fun s m => { s with device_connections := m })
  let st2 := step st1 "ip:" ip_address
    (·.ip_connections) (fun s m => { s with ip_connections := m })
  step st2 "payment:" payment_method
    (·.payment_connections) (fun s m => { s with payment_connections := m })

/-- One detected ring (dictionary the source appends to `fraud_rings`). -/
structure FraudRing where
  ring_type : String
  connection : String
  users : List String
  size : ℕ
  risk_score : ℚ
deriving DecidableEq, Repr

/-- One iteration of a ring-detection loop: emit a ring when the user set
attached to the connection point reaches `min_ring_size`. -/
def mkRing (ring_type : String) (min_ring_size : ℕ) (p : String × List String) :
    Option FraudRing :=
  if p.2.length ≥ min_ring_size then
    some { ring_type := ring_type, connection := p.1, users := p.2,
           size := p.2.length,
           risk_score := qMin 1 (qDiv (qSub (p.2.length : ℚ) (min_ring_size : ℚ)) 10) }
  else none

/-- `NetworkFraudDetector.detect_fraud_rings` (also stores the user lists in
`self.fraud_rings`). -/
def detect_fraud_rings (ns : NetworkState) (min_ring_size : ℕ) :
    List FraudRing × NetworkState :=
  let rings :=
    ns.device_connections.filterMap (mkRing "device_sharing" min_ring_size) ++
    ns.ip_connections.filterMap (mkRing "ip_sharing" min_ring_size) ++
    ns.payment_connections.filterMap (mkRing "payment_sharing" min_ring_size)
  (rings, { ns with fraud_rings := rings.map (·.users) })

/-- `nx.degree_centrality(G)[v]`: degree scaled by `1/(len(G)-1)`
(`1` when the graph has at most one node). -/
def degree_centrality (g : NetGraph) (v : String) : ℚ :=
  let d : ℚ := ((adjGet g v).length : ℚ)
  if g.length ≤ 1 then d else qDiv d (qSub (g.length : ℚ) 1)

/-- `nx.clustering(G, v)` for an unweighted graph: (links among neighbors,
counted as ordered pairs) / (deg·(deg−1)); `0` below degree 2. -/
def clustering (g : NetGraph) (v : String) : ℚ :=
  let nb := adjGet g v
  let d := nb.length
  if d < 2 then 0
  else
    let links := (nb.map fun x =>
      (nb.filter fun y => y ≠ x ∧ (adjGet g x).contains y).length).sum
    qDiv (links : ℚ) (qMul (d : ℚ) (qSub (d : ℚ) 1))

/-- Nodes within `fuel` hops of the seed (the node set of
`nx.ego_graph(G, v, radius=fuel)`), duplicate-free. -/
def withinHops (g : NetGraph) (v : String) : ℕ → List String
  | 0 => [v]
  | n + 1 =>
    let prev := withinHops g v n
    (prev ++ prev.flatMap (adjGet g)).dedup

/-- Return value of `NetworkFraudDetector.get_user_network_risk`. -/
structure NetRisk where
  risk_score : ℚ
  risk_factors : List String
  connected_suspicious_users : List String
deriving DecidableEq, Repr

/-- `NetworkFraudDetector.get_user_network_risk`.  `degree_centrality` and
`clustering` model the NetworkX library calls; CPython's arbitrary set
iteration order for `list(set(...))` is modelled as first-encounter order. -/
def get_user_network_risk (ns : NetworkState) (user_id : String) (max_hops : ℕ) :
    NetRisk :=
  if ¬ hasNode ns.graph user_id then
    { risk_score := 0, risk_factors := [], connected_suspicious_users := [] }
  else
    let neighbors := (withinHops ns.graph user_id max_hops).erase user_id
    let ringHit : List String × ℚ :=
      if ns.fraud_rings.any (fun ring => ring.contains user_id) then
        (["member_of_fraud_ring"], mkRat 4 5)
      else ([], 0)
    let connected_suspicious := neighbors.flatMap fun n =>
      if strStarts "device:" n || strStarts "ip:" n then
        (adjGet ns.graph n).filter fun nnn =>
          ¬ (strStarts "device:" nnn || strStarts "ip:" nnn || strStarts "payment:" nnn)
      else []
    let centrality := degree_centrality ns.graph user_id
    let central : List String × ℚ :=
      if qLtB (mkRat 1 10) centrality then
        (["high_network_centrality"], qMul centrality (mkRat 3 10))
      else ([], 0)
    let clus := clustering ns.graph user_id
    let clustered : List String × ℚ :=
      if qLtB (mkRat 1 2) clus then (["high_network_clustering"], mkRat 1 5) else ([], 0)
    { risk_score := qMin 1 (qAdd (qAdd ringHit.2 central.2) clustered.2),
      risk_factors := ringHit.1 ++ central.1 ++ clustered.1,
      connected_suspicious_users := connected_suspicious.dedup.take 10 }

/-! ## Ensemble anomaly detector — `src/app/ml_models.py` -/

/-- Feature vector (`np.array` of 8 floats built by `extract_features`). -/
abbrev FeatureVec := List ℚ

/-- Oracles for Python-runtime primitives the repository calls but does not
implement: ISO-8601 parsing (`datetime.fromisoformat`, failing on malformed
input) and the per-process-randomized string `hash`. -/
structure PyRuntime where
  /-- `datetime.fromisoformat(s)` then `.hour`/`.weekday()`. -/
  parseIsoHW : String → Except Unit (ℤ × ℤ)
  /-- `datetime.fromisoformat(s)` as an epoch-seconds timestamp. -/
  parseTs : String → Except Unit ℤ
  /-- Python `hash` on strings. -/
  pyHash : String → ℤ

/-- `str(x)` for the values `extract_features` may meet (its pipeline callers
only ever reach the `.pstr` and default cases). -/
def pyStrRepr : PyVal → String
  | .pstr s => s
  | .pnone => "None"
  | .pbool b => if b then "True" else "False"
  | .pint i => toString i
  | .prat q => toString q
  | .plist _ => "[...]"
  | .pdict _ => "{...}"

/-- `EnhancedAnomalyDetector.extract_features`.  The time-based block is a
`try`: a missing/malformed/non-string timestamp falls back to `[12, 3]`. -/
def extract_features (rt : PyRuntime) (event : List (String × PyVal)) : FeatureVec :=
  let timeFeatures : List ℚ :=
    match pyDictGet event "timestamp" (.pstr "") with
    | .pstr s =>
      match rt.parseIsoHW (s.replace "Z" "+00:00") with
      | .ok hw => [(hw.1 : ℚ), (hw.2 : ℚ)]
      | .error _ => [12, 3]
    | _ => [12, 3]
  let event_type_len : ℚ := ((pyStrRepr (pyDictGet event "event_type" (.pstr ""))).length : ℚ)
  let has_error : ℚ := if pyTruthy (pyDictGet event "error_code" .pnone) then 1 else 0
  let is_eu : ℚ := if pyTruthy (pyDictGet event "is_eu" .pnone) then 1 else 0
  let has_consent : ℚ := if pyTruthy (pyDictGet event "has_consent" .pnone) then 1 else 0
  let sub : ℚ :=
    match pyDictGet event "subscription_plan" .pnone with
    | .pstr s =>
      match [("basic", (0:ℚ)), ("premium", 1), ("vip", 2)].lookup s with
      | some v => v
      | none => 0
    | _ => 0
  let etype : ℚ :=
    match pyDictGet event "event_type" (.pstr "") with
    | .pstr s =>
      match [("play", (1:ℚ)), ("pause", 2), ("stop", 3), ("seek", 4),
             ("login", 5), ("logout", 6), ("login_failed", 7),
             ("purchase", 8), ("download", 9), ("error", 10)].lookup s with
      | some v => v
      | none => 0
    | _ => 0
  timeFeatures ++ [event_type_len, has_error, is_eu, has_consent, sub, etype]

/-- The `IsolationForest` attribute: either an estimator whose `fit` raised
(so it was assigned but never fitted) or one fitted on a training set.  With
`random_state=42` the fitted estimator is a deterministic function of its
training data, so the training set identifies it. -/
inductive IFModel where
  | unfitted
  | fitted (train : List FeatureVec)
deriving DecidableEq, Repr

/-- Oracles for the scikit-learn numerics (external to the repository). -/
structure MlEnv where
  /-- `IsolationForest(...).fit(X)` — `.error` models a raise inside `fit`. -/
  ifFit : List FeatureVec → Except Unit Unit
  /-- `predict(x)[0]` and `-score_samples(x)[0]` is applied by the caller;
  this returns `(predict(x)[0], score_samples(x)[0])` of the estimator
  fitted on the given training set; `.error` models a raise (e.g. scoring
  through an unfitted estimator). -/
  ifPredictScore : List FeatureVec → FeatureVec → Except Unit (ℤ × ℚ)
  /-- Lines 114–130 of `detect_anomaly_lof`: fit a `LocalOutlierFactor` on
  the stacked window+current matrix and compare the current point's score
  against mean − 2·std; returns the final `(is_anomaly, float(abs(score)))`. -/
  lofEval : List FeatureVec → FeatureVec → Except Unit (Bool × ℚ)

/-- Scoring through the stored estimator (`predict` on an unfitted estimator
raises `NotFittedError`). -/
def ifPredictScoreM (env : MlEnv) (m : IFModel) (f : FeatureVec) :
    Except Unit (ℤ × ℚ) :=
  match m with
  | .unfitted => .error ()
  | .fitted train => env.ifPredictScore train f

/-- State of the `EnhancedAnomalyDetector` singleton. -/
structure MlState where
  isolation_forest : Option IFModel := none
  feature_history : List FeatureVec := []

/-- `EnhancedAnomalyDetector.detect_anomaly_isolation_forest`.  The whole
body is a `try` returning `(False, 0.0)` on any raise; the lazy
initialization assigns the estimator *before* fitting it on `[features]`
(only the data seen so far — here the current vector), so the assignment
survives a raise inside `fit`. -/
def detect_anomaly_isolation_forest (env : MlEnv) (rt : PyRuntime)
    (model : Option IFModel) (event : List (String × PyVal)) :
    (Bool × ℚ) × Option IFModel :=
  let features := extract_features rt event
  match model with
  | none =>
    match env.ifFit [features] with
    | .error _ => ((false, 0), some .unfitted)
    | .ok _ =>
      let m := IFModel.fitted [features]
      match ifPredictScoreM env m features with
      | .error _ => ((false, 0), some m)
      | .ok ps => ((ps.1 = -1, -ps.2), some m)
  | some m =>
    match ifPredictScoreM env m features with
    | .error _ => ((false, 0), some m)
    | .ok ps => ((ps.1 = -1, -ps.2), some m)

/-- `EnhancedAnomalyDetector.detect_anomaly_lof`: below `n_neighbors + 1`
stored history vectors the call short-circuits to `(False, 0.0)`; otherwise
the LOF numerics run on `history[-n_neighbors:]` plus the current vector. -/
def detect_anomaly_lof (env : MlEnv) (rt : PyRuntime) (history : List FeatureVec)
    (event : List (String × PyVal)) (n_neighbors : ℕ := 20) : Bool × ℚ :=
  if history.length < n_neighbors + 1 then (false, 0)
  else
    let features := extract_features rt event
    match env.lofEval (history.drop (history.length - n_neighbors)) features with
    | .ok r => r
    | .error _ => (false, 0)

/-- `EnhancedAnomalyDetector._add_to_history` (bounded at 10000, oldest
dropped). -/
def add_to_history (history : List FeatureVec) (features : FeatureVec) :
    List FeatureVec :=
  let h := history ++ [features]
  if h.length > 10000 then h.drop (h.length - 10000) else h

/-- Return value of `ensemble_anomaly_detection`. -/
structure MlResult where
  is_anomaly : Bool
  ensemble_score : ℚ
  flags : List String
  if_anomaly : Bool
  if_score : ℚ
  lof_anomaly : Bool
  lof_score : ℚ

/-- The literal result dictionary (source lines 159–171): keys
`is_anomaly`, `ensemble_score`, `flags`, `isolation_forest`, `lof` — in
particular there is no `anomaly_score` key, which the orchestrator reads
with default `2.0`. -/
def MlResult.toDict (r : MlResult) : List (String × PyVal) :=
  [("is_anomaly", .pbool r.is_anomaly),
   ("ensemble_score", .prat r.ensemble_score),
   ("flags", .plist (r.flags.map .pstr)),
   ("isolation_forest", .pdict
      [("is_anomaly", .pbool r.if_anomaly), ("score", .prat r.if_score)]),
   ("lof", .pdict
      [("is_anomaly", .pbool r.lof_anomaly), ("score", .prat r.lof_score)])]

/-- `EnhancedAnomalyDetector.ensemble_anomaly_detection`: anomaly iff at
least one detector votes anomaly; score is the mean of the two component
scores; the current features are appended to the history afterwards. -/
def ensemble_anomaly_detection (env : MlEnv) (rt : PyRuntime) (st : MlState)
    (event : List (String × PyVal)) : MlResult × MlState :=
  let ifr := detect_anomaly_isolation_forest env rt st.isolation_forest event
  let lofr := detect_anomaly_lof env rt st.feature_history event
  let is_ensemble_anomaly := ifr.1.1 || lofr.1
  let ensemble_score := qDiv (qAdd ifr.1.2 lofr.2) 2
  let flags :=
    (if ifr.1.1 then ["isolation_forest_anomaly"] else []) ++
    (if lofr.1 then ["lof_anomaly"] else [])
  ({ is_anomaly := is_ensemble_anomaly,
     ensemble_score := ensemble_score,
     flags := flags,
     if_anomaly := ifr.1.1, if_score := ifr.1.2,
     lof_anomaly := lofr.1, lof_score := lofr.2 },
   { isolation_forest := ifr.2,
     feature_history := add_to_history st.feature_history (extract_features rt event) })

/-! ## Risk orchestrator — `src/app/compliance_rules.py` (`evaluate_compliance`) -/

/-- The incoming event dictionary, typed by the fields `evaluate_compliance`
reads (each read through `event.get` with the source's default). -/
structure Event where
  event_id : Option String := none
  user_id : Option String := none
  device_id : Option String := none
  content_id : Option String := none
  ip_address : Option String := none
  timestamp : Option String := none
  payment_method : Option String := none
  event_type : Option String := none
  region : Option String := none
  subscription_plan : Option String := none
  is_eu : Option Bool := none
  has_consent : Option Bool := none

/-- A `RawEvent` row as consumed by the orchestrator's queries. -/
structure RawEvent where
  event_id : String
  timestamp : ℤ
  region : String
deriving DecidableEq, Repr

/-- A `ProcessedEvent` row (one per `event_id`). -/
structure ProcRec where
  risk_level : String
  risk_score : Option ℚ
deriving DecidableEq, Repr

/-- The SQL session: per-user event history plus processed-event lookups.
`.error` on `allEvents` models a database exception at the query site. -/
structure DbEnv where
  allEvents : String → Except Unit (List RawEvent)
  processed : String → Option ProcRec

/-- Evaluation environment: clock, external geolocation source, Python
runtime primitives, scikit-learn numerics, optional database session. -/
structure Env where
  nowHour : ℤ
  nowWeekday : ℤ
  nowSec : ℤ
  nowIso : String
  geoLoc : String → LocationData
  rt : PyRuntime
  ml : MlEnv
  db : Option DbEnv

/-- The shared mutable singletons touched by one evaluation. -/
structure SysState where
  thresholds : ThresholdState := {}
  network : NetworkState := {}
  ml : MlState := {}
  profiles : List (String × ProfileRec) := []
  geo_cache : List (String × LocationData) := []

/-- Flags and score contributed by one pipeline stage. -/
structure StageOut where
  flags : List String := []
  delta : ℚ := 0
deriving DecidableEq, Repr

/-- `detailed_findings` values (only the stages that reach their
`detailed_findings[...] = ...` line without a prior raise ever write one). -/
inductive Finding where
  | segment (value : String) (risk_parameters : RiskParams)
  | network (r : NetRisk)
  | compliance (c : ComplianceResult)

/-- Keyword names at the orchestrator's `get_dynamic_risk_threshold(...)`
call (line 159); the signature's parameters are
`user_segment, hour, region`, so the call raises `TypeError`. -/
def thresholdCallBindOk : Bool :=
  pyCallOk ["user_segment", "hour", "region"] 0
    ["region", "user_segment", "time_of_day_utc"]

/-- Keyword names at the orchestrator's `record_event(...)` call (line 324);
the signature's parameters are
`risk_score, is_violation, user_segment, hour, region`, so the call raises
`TypeError`. -/
def recordEventBindOk : Bool :=
  pyCallOk ["risk_score", "is_violation", "user_segment", "hour", "region"] 0
    ["region", "time_of_day", "score", "violation"]

/-- `detect_impossible_travel(user_id, ip_address)` (line 74) passes 2 of the
4 required positional parameters: `TypeError`. -/
def travelCallBindOk : Bool :=
  pyCallOk ["user_id", "current_ip", "last_location", "current_timestamp"] 2 []

/-- `predict_violation_likelihood(user_id=..., recent_events_count=...,
average_risk_score=...)` (line 229) against parameters
`user_history, current_event`: `TypeError`. -/
def violationPredictBindOk : Bool :=
  pyCallOk ["user_history", "current_event"] 0
    ["user_id", "recent_events_count", "average_risk_score"]

/-- `_add_to_history(event_features, is_violation=False)` (line 218) against
the single parameter `features`: `TypeError`. -/
def addToHistoryKwBindOk : Bool := pyCallOk ["features"] 1 ["is_violation"]

/-- Stage 1 (GeoIP validation).  The validator's result dictionary has no
`region_match` key, so `geoip_result.get("region_match", True)` yields the
default `True` and the mismatch branch (flag `geoip_region_mismatch`, score
`+= geoip_result.get("risk_score", 0.5)`) is skipped; when a user id is
present, `detect_impossible_travel(user_id, ip_address)` then raises
`TypeError` (2 of 4 required positional arguments, `travelCallBindOk =
false`), caught by the stage's `except` — anything appended before the raise
would persist. -/
def stage1_geo (env : Env) (cache : List (String × LocationData)) (ev : Event) :
    StageOut × List (String × LocationData) :=
  let region := ev.region.getD "unknown"
  if strTruthy ev.ip_address ∧ region ≠ "" then
    let r := validate_ip_region_consistency env.geoLoc cache (ev.ip_address.getD "") region
    let d := r.1.toDict
    let out : StageOut :=
      if ¬ pyTruthy (pyDictGet d "region_match" (.pbool true)) then
        { flags := ["geoip_region_mismatch"],
          delta := pyRatOf (pyDictGet d "risk_score" (.prat (mkRat 1 2))) }
      else {}
    (out, r.2)
  else ({}, cache)

/-- Stage 2 (missing identifiers). -/
def stage2_ids (ev : Event) : StageOut :=
  { flags := (if ¬ strTruthy ev.user_id then ["missing_user_id"] else []) ++
      (if ¬ strTruthy ev.device_id then ["missing_device_id"] else []),
    delta := qAdd (if ¬ strTruthy ev.user_id then 2 else 0)
      (if ¬ strTruthy ev.device_id then 2 else 0) }

/-- Stage 3 (basic event-type rules). -/
def stage3_event_type (event_type : String) : StageOut :=
  if event_type = "error" ∨ event_type = "login_failed" ∨
      event_type = "token_refresh_failed" then
    { flags := ["auth_or_playback_error"], delta := 3 }
  else {}

/-- Stage 4 (consent and privacy). -/
def stage4_eu (is_eu has_consent : Bool) : StageOut :=
  if is_eu ∧ ¬ has_consent then
    { flags := ["eu_privacy_violation"], delta := 5 }
  else {}

/-- Stage 5 (user segmentation): rolling counters from the per-user history,
then `update_user_profile`.  A database exception is caught (no segment, no
profile update); an empty history skips the block.  Contributes no flags and
no score either way. -/
def stage5_segment (env : Env) (db : DbEnv) (user : String)
    (profiles : List (String × ProfileRec)) :
    Option UserSegment × Option RiskParams × List (String × ProfileRec) :=
  match db.allEvents user with
  | .error _ => (none, none, profiles)
  | .ok all_events =>
    if all_events.isEmpty then (none, none, profiles)
    else
      let now := env.nowSec
      let events_30d := all_events.filter fun e => e.timestamp ≥ now - 30 * 86400
      let events_7d := all_events.filter fun e => e.timestamp ≥ now - 7 * 86400
      let violations_30d := (events_30d.filter fun e =>
        match db.processed e.event_id with
        | some p => p.risk_level = "high" ∨ p.risk_level = "critical"
        | none => false).length
      let minTs := match all_events with
        | [] => 0
        | e :: es => es.foldl (fun a x => min a x.timestamp) e.timestamp
      let maxTs := match all_events with
        | [] => 0
        | e :: es => es.foldl (fun a x => max a x.timestamp) e.timestamp
      let days_since_signup := max 1 (Int.fdiv (now - minTs) 86400)
      let last_activity_days := Int.fdiv (now - maxTs) 86400
      let avg_risk : ℚ :=
        if events_30d.isEmpty then 0
        else qDiv (qSum (events_30d.map fun e =>
            match db.processed e.event_id with
            | some p => p.risk_score.getD 0
            | none => 0)) (events_30d.length : ℚ)
      let sp := update_user_profile profiles user (events_30d.length : ℤ)
        (events_7d.length : ℤ) (violations_30d : ℤ) days_since_signup
        last_activity_days avg_risk env.nowIso
      (some sp.1, some (get_segment_risk_parameters sp.1), sp.2)

/-- Stage 6 (adaptive threshold).  The call uses keyword
`time_of_day_utc`, which the signature does not have
(`thresholdCallBindOk = false`): `TypeError`, caught, fallback `8.0`; the
`adaptive_threshold` finding inside the `try` is never written. -/
def stage6_threshold (st : ThresholdState) (seg : Option UserSegment)
    (env : Env) (region : String) : ℚ :=
  if thresholdCallBindOk then
    get_dynamic_risk_threshold st (seg.map UserSegment.value) env.nowHour region
  else 8

/-- Stage 7 (network fraud detection). -/
def stage7_network (ns : NetworkState) (ev : Event) :
    StageOut × NetworkState × NetRisk :=
  let ns' := add_user_event ns (ev.user_id.getD "") ev.device_id ev.ip_address
    ev.payment_method
  let network_risk := get_user_network_risk ns' (ev.user_id.getD "") 2
  (if qLtB (mkRat 1 2) network_risk.risk_score then
     { flags := ["fraud_ring_connection"], delta := qMul network_risk.risk_score 2 }
   else {},
   ns', network_risk)

/-- Stage 8 (ML anomaly detection).  The ensemble result dictionary has no
`anomaly_score` key, so an anomaly adds the default `2.0`; the stage then
calls `_add_to_history(event_features, is_violation=False)`, which raises
`TypeError` (`addToHistoryKwBindOk = false`), caught by the stage's
`except` — the flag and score added before the raise persist and the
`ml_anomaly_detection` finding is never written. -/
def stage8_ml (env : Env) (mlst : MlState) (event_type : String)
    (is_eu has_consent : Bool) (subscription_plan : String)
    (device_id : Option String) (region : String) :
    StageOut × MlState × MlResult :=
  let tier : ℤ :=
    match [("basic", (1:ℤ)), ("standard", 2), ("premium", 3)].lookup subscription_plan with
    | some t => t
    | none => 1
  let event_features : List (String × PyVal) :=
    [("hour", .pint env.nowHour),
     ("weekday", .pint env.nowWeekday),
     ("event_type_len", .pint (event_type.length : ℤ)),
     ("has_error", .pint (if event_type = "error" ∨ event_type = "login_failed" then 1 else 0)),
     ("is_eu", .pint (if is_eu then 1 else 0)),
     ("has_consent", .pint (if has_consent then 1 else 0)),
     ("subscription_tier", .pint tier),
     ("device_id", .pint (if strTruthy device_id then (env.rt.pyHash (device_id.getD "")) % 1000 else 0)),
     ("region_code", .pint (if region ≠ "" then (env.rt.pyHash region) % 100 else 0))]
  let r := ensemble_anomaly_detection env.ml env.rt mlst event_features
  let out : StageOut :=
    if r.1.is_anomaly then
      { flags := ["ml_ensemble_anomaly"],
        delta := pyRatOf (pyDictGet r.1.toDict "anomaly_score" (.prat 2)) }
    else {}
  (out, r.2, r.1)

/-- Stage 9 (violation prediction).  The call's keyword names do not match
the signature (`violationPredictBindOk = false`): `TypeError`, caught;
the stage never contributes anything. -/
def stage9_violation_prediction (userTruthy : Bool) : StageOut :=
  if userTruthy then
    if violationPredictBindOk then {} else {}
  else {}

/-- Stage 10 (multi-country compliance check). -/
def stage10_compliance (user_id : Option String) (event_type region : String)
    (has_consent : Bool) : StageOut × ComplianceResult :=
  let res := evaluate_event_compliance
    (if strTruthy user_id then user_id.getD "" else "unknown")
    event_type region { has_explicit_consent := some has_consent }
  (if ¬ res.compliant then
     { flags := ["multi_country_violation"],
       delta := qMul (res.violations.length : ℚ) 2 }
   else {},
   res)

/-- Stage 12 (time-window analysis): parse failure or database exception is
caught and contributes nothing. -/
def stage12_time_window (env : Env) (db : DbEnv) (user timestamp : String) :
    StageOut :=
  match env.rt.parseTs (timestamp.replace "Z" "+00:00") with
  | .error _ => {}
  | .ok event_time =>
    match db.allEvents user with
    | .error _ => {}
    | .ok evs =>
      let recent := evs.filter fun e =>
        e.timestamp ≥ event_time - 3600 ∧ e.timestamp ≤ event_time
      let regions := (recent.map (·.region)).dedup
      { flags := (if regions.length > 2 then ["multi_region_access"] else []) ++
          (if recent.length > 10 then ["high_frequency_activity"] else []),
        delta := qAdd (if regions.length > 2 then 2 else 0)
          (if recent.length > 10 then 1 else 0) }

/-- Stage 14 (metrics and alerts).  `record_event` is called with keyword
names `region, time_of_day, score, violation` against parameters
`risk_score, is_violation, user_segment, hour, region`
(`recordEventBindOk = false`): `TypeError`, caught at line 350 — nothing is
appended to the threshold accumulators, the ML violation-history update and
the alert dispatch after the call are never reached. -/
def stage14_record (dbPresent : Bool) (risk_level : String)
    (ts : ThresholdState) : ThresholdState :=
  if dbPresent ∧ (risk_level = "high" ∨ risk_level = "critical") then
    if recordEventBindOk then ts else ts
  else ts

/-- The orchestrator's result dictionary. -/
structure EvalResult where
  score : ℚ
  risk_level : String
  flags : List String
  detailed_findings : List (String × Finding)

/-- `evaluate_compliance(event, db)` — the `Evaluate` entry point.  Stages
run in source order; the score is additive through stage 10, adjusted by the
subscription rule (stage 11), then stage 12 adds on top; the risk level
compares the final score with the stage-6 threshold. -/
def evaluate_compliance (ev : Event) (env : Env) (st : SysState) :
    EvalResult × SysState :=
  let event_type := strLower (ev.event_type.getD "")
  let region := ev.region.getD "unknown"
  let is_eu := ev.is_eu.getD false
  let has_consent := ev.has_consent.getD true
  let subscription_plan := ev.subscription_plan.getD "basic"
  let s1 := stage1_geo env st.geo_cache ev
  let s2 := stage2_ids ev
  let s3 := stage3_event_type event_type
  let s4 := stage4_eu is_eu has_consent
  let s5 : Option UserSegment × Option RiskParams × List (String × ProfileRec) :=
    match env.db with
    | some db =>
      if strTruthy ev.user_id then stage5_segment env db (ev.user_id.getD "") st.profiles
      else (none, none, st.profiles)
    | none => (none, none, st.profiles)
  let dynamic_threshold := stage6_threshold st.thresholds s5.1 env region
  let s7 : StageOut × NetworkState × Option NetRisk :=
    if strTruthy ev.user_id then
      let r := stage7_network st.network ev
      (r.1, r.2.1, some r.2.2)
    else ({}, st.network, none)
  let s8 : StageOut × MlState × Option MlResult :=
    match env.db with
    | some _ =>
      if strTruthy ev.user_id then
        let r := stage8_ml env st.ml event_type is_eu has_consent
          subscription_plan ev.device_id region
        (r.1, r.2.1, some r.2.2)
      else ({}, st.ml, none)
    | none => ({}, st.ml, none)
  let s9 := stage9_violation_prediction (strTruthy ev.user_id)
  let s10 := stage10_compliance ev.user_id event_type region has_consent
  let base := qAdd (qAdd (qAdd (qAdd (qAdd (qAdd (qAdd s1.1.delta s2.delta)
    s3.delta) s4.delta) s7.1.delta) s8.1.delta) s9.delta) s10.1.delta
  let adjusted :=
    if subscription_plan = "premium" then qMax 0 (qSub base 1)
    else if subscription_plan = "basic" then qAdd base 1
    else base
  let s12 : StageOut :=
    match env.db with
    | some db =>
      if strTruthy ev.user_id ∧ strTruthy ev.timestamp then
        stage12_time_window env db (ev.user_id.getD "") (ev.timestamp.getD "")
      else {}
    | none => {}
  let score := qAdd adjusted s12.delta
  let threshold_high := if dynamic_threshold ≠ 0 then dynamic_threshold else 8
  let threshold_medium := qMax 0 (qSub threshold_high 3)
  let risk_level : String :=
    if qLeB threshold_high score then "high"
    else if qLeB threshold_medium score then "medium"
    else "low"
  let flags := s1.1.flags ++ s2.flags ++ s3.flags ++ s4.flags ++ s7.1.flags ++
    s8.1.flags ++ s9.flags ++ s10.1.flags ++ s12.flags
  let detailed_findings : List (String × Finding) :=
    (match s5.1, s5.2.1 with
     | some seg, some p => [("user_segment", .segment seg.value p)]
     | _, _ => []) ++
    (match s7.2.2 with
     | some nr => [("network_analysis", .network nr)]
     | none => []) ++
    [("compliance_check", .compliance s10.2)]
  ({ score := pyRound2 score, risk_level := risk_level, flags := flags,
     detailed_findings := detailed_findings },
   { thresholds := stage14_record env.db.isSome risk_level st.thresholds,
     network := s7.2.1, ml := s8.2.1, profiles := s5.2.2, geo_cache := s1.2 })

/-! ## Concrete environments for closed theorems and witnesses -/

/-- Python runtime with failing ISO parsing and zero string hashes. -/
def rt0 : PyRuntime :=
  { parseIsoHW := fun _ => .error (), parseTs := fun _ => .error (),
    pyHash := fun _ => 0 }

/-- scikit-learn oracle whose estimators never raise and never flag. -/
def ml0 : MlEnv :=
  { ifFit := fun _ => .ok (), ifPredictScore := fun _ _ => .ok (1, 0),
    lofEval := fun _ _ => .ok (false, 0) }

/-- Database session with an empty per-user history. -/
def dbEmpty : DbEnv := { allEvents := fun _ => .ok [], processed := fun _ => none }

/-- Baseline environment: no database, failed geolocation lookups. -/
def env0 : Env :=
  { nowHour := 12, nowWeekday := 3, nowSec := 1700000000, nowIso := "t",
    geoLoc := fun _ => {}, rt := rt0, ml := ml0, db := none }

/-- Fresh singleton state. -/
def st0 : SysState := {}

/-! ## Claim theorems -/

/-- C4: `get_dynamic_risk_threshold` always lies within `[4.0, 12.0]` for
every segment, hour, region and learned state, and it is exactly the base
`8.0` times `(1 + time adjustment + region adjustment + segment adjustment)`
clamped to that range. -/
theorem C4_dynamic_threshold_bounds (st : ThresholdState) (seg : Option String)
    (hour : ℤ) (region : String) :
    4 ≤ get_dynamic_risk_threshold st seg hour region ∧
    get_dynamic_risk_threshold st seg hour region ≤ 12 ∧
    get_dynamic_risk_threshold st seg hour region =
      max 4 (min 12 (8 * (1 + get_time_adjustment hour +
        get_region_adjustment st region + get_segment_adjustment seg))) := by
  have hdef : get_dynamic_risk_threshold st seg hour region =
      max 4 (min 12 (8 * (1 + get_time_adjustment hour +
        get_region_adjustment st region + get_segment_adjustment seg))) := by
    rw [get_dynamic_risk_threshold, qMax_eq, qMin_eq, qMul_eq, qAdd_eq, qAdd_eq,
      qAdd_eq]
  refine ⟨?_, ?_, hdef⟩
  · rw [hdef]
    exact le_max_left _ _
  · rw [hdef]
    exact max_le (by norm_num) (min_le_left _ _)

/-- Event for the C5 failing input: high-risk outcome with a database
session present. -/
def evC5 : Event :=
  { user_id := some "u1", event_type := some "error",
    is_eu := some true, has_consent := some false }

/-- Environment for the C5 failing input. -/
def envC5 : Env := { env0 with db := some dbEmpty }

/-- C5: at a concrete high-risk event evaluated with a database session, the
orchestrator's `record_event(region=..., time_of_day=..., score=...,
violation=...)` call does not bind against
`record_event(risk_score, is_violation, user_segment, hour, region)`
(`TypeError`, caught at line 350), so the Adaptive Threshold Engine's
accumulators are left untouched — nothing is ever appended to the per-hour,
per-region or per-segment score/violation lists. -/
theorem C5_record_event_call_never_binds :
    recordEventBindOk = false ∧
    (evaluate_compliance evC5 envC5 st0).1.risk_level = "high" ∧
    (evaluate_compliance evC5 envC5 st0).2.thresholds = st0.thresholds := by
  decide

/-- scikit-learn oracle whose isolation forest flags every vector as an
anomaly with raw score −3/4. -/
def mlAnom : MlEnv :=
  { ifFit := fun _ => .ok (), ifPredictScore := fun _ _ => .ok (-1, mkRat (-3) 4),
    lofEval := fun _ _ => .ok (false, 0) }

/-- Event for the C1 failing input (user id and database present, so the ML
stage runs). -/
def evC1 : Event := { user_id := some "u1", subscription_plan := some "standard" }

/-- Environment for the C1 failing input. -/
def envC1 : Env := { env0 with db := some dbEmpty, ml := mlAnom }

/-- C1: the ML stage (stage 8) always raises a `TypeError` at
`_add_to_history(event_features, is_violation=False)` (the signature's only
parameter is `features`), after having already appended the flag
`ml_ensemble_anomaly` and added `+2.0` to the score when the ensemble voted
anomaly.  The exception is caught and a full assessment (score, level,
flags) is still returned — but the failed stage's contribution is not zero,
contradicting the claim's "the failed stage contributes zero score and no
flag". -/
theorem C1_failed_stage_contributes :
    addToHistoryKwBindOk = false ∧
    (evaluate_compliance evC1 envC1 st0).1.flags =
      ["missing_device_id", "ml_ensemble_anomaly"] ∧
    (evaluate_compliance evC1 envC1 st0).1.score = 4 ∧
    (evaluate_compliance evC1 envC1 st0).1.risk_level = "low" := by
  decide

/-- C2: for every event with the EU flag true and the consent flag false, the
assessment contains `eu_privacy_violation` and the consent check (stage 4)
contributes exactly 5, for every environment and state. -/
theorem C2_eu_without_consent (ev : Event) (env : Env) (st : SysState)
    (h1 : ev.is_eu.getD false = true) (h2 : ev.has_consent.getD true = false) :
    "eu_privacy_violation" ∈ (evaluate_compliance ev env st).1.flags ∧
    stage4_eu (ev.is_eu.getD false) (ev.has_consent.getD true) =
      { flags := ["eu_privacy_violation"], delta := 5 } := by
  have h4 : stage4_eu (ev.is_eu.getD false) (ev.has_consent.getD true) =
      { flags := ["eu_privacy_violation"], delta := 5 } := by
    rw [h1, h2]
    rfl
  refine ⟨?_, h4⟩
  simp only [evaluate_compliance, h4]
  simp [List.mem_append]

/-- Event for the C2 witness. -/
def evC2 : Event := { is_eu := some true, has_consent := some false }

theorem C2_witness :
    "eu_privacy_violation" ∈ (evaluate_compliance evC2 env0 st0).1.flags ∧
    stage4_eu (evC2.is_eu.getD false) (evC2.has_consent.getD true) =
      { flags := ["eu_privacy_violation"], delta := 5 } :=
  C2_eu_without_consent evC2 env0 st0 (by decide) (by decide)

/-- Geolocation oracle resolving every IP to France. -/
def geoLocFR : String → LocationData := fun _ => { country_code := some "FR" }

/-- Geolocation oracle resolving every IP to the United States. -/
def geoLocUS : String → LocationData := fun _ => { country_code := some "US" }

/-- Event for the C3 failing input: IP present, claimed region `US`. -/
def evC3 : Event := { ip_address := some "9.9.9.9", region := some "US" }

/-- Environment whose lookup contradicts the claimed region. -/
def envC3 : Env := { env0 with geoLoc := geoLocFR }

/-- Environment whose lookup matches the claimed region. -/
def envC3match : Env := { env0 with geoLoc := geoLocUS }

/-- C3: when the resolved country (FR) differs from the claimed region (US),
the validator itself returns the flag `ip_region_mismatch` with score
adjustment 3 — but `evaluate_compliance` reads the keys `region_match` and
`risk_score`, which the validator's dictionary does not contain, so the
assessment carries no geo flag and its score is identical to the same event
evaluated against a matching lookup. -/
theorem C3_geo_mismatch_lost :
    (validate_ip_region_consistency geoLocFR [] "9.9.9.9" "US").1.flags =
      ["ip_region_mismatch"] ∧
    (validate_ip_region_consistency geoLocFR [] "9.9.9.9" "US").1.score_adjustment = 3 ∧
    (evaluate_compliance evC3 envC3 st0).1.flags =
      ["missing_user_id", "missing_device_id"] ∧
    (evaluate_compliance evC3 envC3 st0).1.score =
      (evaluate_compliance evC3 envC3match st0).1.score := by
  decide

/-- Modelled from the claim's words: the spec's suspicious condition — 30-day
violations exceed 5, or the 7-day event rate exceeds 4 times the 30-day
average daily rate. -/
def specSuspiciousCond (e30 e7 v30 : ℤ) : Prop :=
  v30 > 5 ∨ (e7 : ℚ) / 7 > 4 * ((e30 : ℚ) / 30)

/-- Modelled from the claim's words: the power-user rule. -/
def specPowerCond (e30 v30 signup : ℤ) : Prop :=
  e30 > 500 ∧ v30 = 0 ∧ signup > 180

/-- Modelled from the claim's words: the new-user rule. -/
def specNewCond (e30 signup : ℤ) : Prop := signup < 30 ∧ e30 < 50

/-- C6 counterexample: with 4 events in 30 days, 4 of them in the last
7 days, no violations, signup 100 days ago and recent activity, the claim's
suspicious condition holds (4/7 > 4·(4/30)) and no earlier rule matches, yet
`classify_user` returns `normal_user` — the code's spike test is
`event_count_7d > event_count_30d / 4 * 7`, not the claimed 4× daily-rate
ratio. -/
theorem C6_counterexample :
    specSuspiciousCond 4 4 0 ∧ ¬ specPowerCond 4 0 100 ∧ ¬ specNewCond 4 100 ∧
    classify_user "u" 4 4 0 100 0 0 = UserSegment.normal_user ∧
    classify_user "u" 4 4 0 100 0 0 ≠ UserSegment.suspicious_user := by
  refine ⟨?_, ?_, ?_, by decide, by decide⟩
  · rw [specSuspiciousCond]
    norm_num
  · rw [specPowerCond]
    norm_num
  · rw [specNewCond]
    norm_num

/-- The code's five classification rules, in source order, as
condition/segment pairs (the spike test is the literal
`event_count_7d > event_count_30d / 4 * 7`). -/
def codeSegmentRules (e30 e7 v30 signup lastAct : ℤ) : List (Bool × UserSegment) :=
  [(decide (e30 > 500 ∧ v30 = 0 ∧ signup > 180), .power_user),
   (decide (signup < 30 ∧ e30 < 50), .new_user),
   (decide (v30 > 5 ∨ qLtB (qMul (qDiv (e30 : ℚ) 4) 7) (e7 : ℚ) = true), .suspicious_user),
   (decide (lastAct > 90 ∧ e30 = 0), .dormant_user),
   (decide (lastAct > 30 ∧ 10 < e30 ∧ e30 < 100), .inactive_user)]

/-- First matching rule wins; `normal_user` as the fall-through. -/
def firstMatchSegment (rules : List (Bool × UserSegment)) : UserSegment :=
  match rules.find? (·.1) with
  | some r => r.2
  | none => .normal_user

/-- C6 (amended): `classify_user` is a pure function of the six rolling
counters returning the first matching segment in the precedence order
power_user, new_user, suspicious_user, dormant_user, inactive_user,
normal_user, where the suspicious rule is: 30-day violations exceed 5, or
the 7-day event count exceeds `event_count_30d / 4 * 7` (i.e. 1.75 times the
30-day count). -/
theorem C6_classify_first_match (uid : String) (e30 e7 v30 signup lastAct : ℤ)
    (avg : ℚ) :
    classify_user uid e30 e7 v30 signup lastAct avg =
      firstMatchSegment (codeSegmentRules e30 e7 v30 signup lastAct) := by
  rw [classify_user, codeSegmentRules, firstMatchSegment]
  by_cases h1 : e30 > 500 ∧ v30 = 0 ∧ signup > 180
  · simp [h1, List.find?]
  by_cases h2 : signup < 30 ∧ e30 < 50
  · simp [h1, h2, List.find?]
  by_cases h3 : v30 > 5 ∨ qLtB (qMul (qDiv (e30 : ℚ) 4) 7) (e7 : ℚ) = true
  · simp [h1, h2, h3, List.find?]
  by_cases h4 : lastAct > 90 ∧ e30 = 0
  · obtain ⟨h4a, h4b⟩ := h4
    have hs : ¬ signup < 30 := fun hh => h2 ⟨hh, by omega⟩
    simp only [h4b, Int.cast_zero] at h3
    simp [h1, h2, h3, h4a, h4b, hs, List.find?]
  by_cases h5 : lastAct > 30 ∧ 10 < e30 ∧ e30 < 100
  · simp [h1, h2, h3, h4, h5, List.find?]
  · simp [h1, h2, h3, h4, h5, List.find?]

/-- The six users of the C7 scenario. -/
def c7Users : List String := ["u1", "u2", "u3", "u4", "u5", "u6"]

/-- Network state after the six users shared one device, one IP and one
payment instrument. -/
def nsC7 : NetworkState :=
  c7Users.foldl (fun ns u => add_user_event ns u (some "d") (some "i") (some "p")) {}

/-- Every ring a `filterMap (mkRing ...)` pass emits satisfies the size and
risk-score contract. -/
theorem mem_filterMap_mkRing {rt : String} {m : ℕ}
    {l : List (String × List String)} {r : FraudRing}
    (h : r ∈ l.filterMap (mkRing rt m)) :
    m ≤ r.size ∧ r.size = r.users.length ∧
    r.risk_score = min 1 (((r.size : ℚ) - (m : ℚ)) / 10) := by
  rcases List.mem_filterMap.1 h with ⟨p, _, hmk⟩
  rw [mkRing] at hmk
  split_ifs at hmk with hlen
  cases hmk
  refine ⟨hlen, rfl, ?_⟩
  show qMin 1 (qDiv (qSub _ _) 10) = _
  rw [qMin_eq, qDiv_eq, qSub_eq]

/-- C7: after 6 distinct users share one device, one IP and one payment
instrument, `detect_fraud_rings` with `min_ring_size = 5` returns 3 rings,
each containing all 6 users with risk score 1/10; and in general every
emitted ring has at least `min_ring_size` users and risk score
`min(1, (size − min_ring_size)/10)`. -/
theorem C7_fraud_rings :
    (3 ≤ (detect_fraud_rings nsC7 5).1.length ∧
     ∀ r ∈ (detect_fraud_rings nsC7 5).1,
       r.users = c7Users ∧ r.size = 6 ∧ r.risk_score = 1/10) ∧
    ∀ (ns : NetworkState) (minRingSize : ℕ) (r : FraudRing),
      r ∈ (detect_fraud_rings ns minRingSize).1 →
      minRingSize ≤ r.size ∧ r.size = r.users.length ∧
      r.risk_score = min 1 (((r.size : ℚ) - (minRingSize : ℚ)) / 10) := by
  have hgen : ∀ (ns : NetworkState) (minRingSize : ℕ) (r : FraudRing),
      r ∈ (detect_fraud_rings ns minRingSize).1 →
      minRingSize ≤ r.size ∧ r.size = r.users.length ∧
      r.risk_score = min 1 (((r.size : ℚ) - (minRingSize : ℚ)) / 10) := by
    intro ns minRingSize r hr
    rw [detect_fraud_rings] at hr
    simp only [List.mem_append] at hr
    rcases hr with (h | h) | h <;> exact mem_filterMap_mkRing h
  refine ⟨⟨by decide, ?_⟩, hgen⟩
  intro r hr
  have hq : (mkRat 1 10 : ℚ) = 1/10 := by
    rw [mkRat_div]
    norm_num
  have hd : ∀ r ∈ (detect_fraud_rings nsC7 5).1,
      r.users = c7Users ∧ r.size = 6 ∧ r.risk_score = mkRat 1 10 := by decide
  obtain ⟨h1, h2, h3⟩ := hd r hr
  exact ⟨h1, h2, by rw [h3, hq]⟩

/-- The device ring of the C7 scenario. -/
def ringC7 : FraudRing :=
  { ring_type := "device_sharing", connection := "d", users := c7Users,
    size := 6, risk_score := mkRat 1 10 }

theorem C7_witness :
    ringC7 ∈ (detect_fraud_rings nsC7 5).1 ∧
    5 ≤ ringC7.size ∧ ringC7.size = ringC7.users.length ∧
    ringC7.risk_score = min 1 (((ringC7.size : ℚ) - ((5 : ℕ) : ℚ)) / 10) :=
  ⟨by decide, C7_fraud_rings.2 nsC7 5 ringC7 (by decide)⟩

/-- scikit-learn oracle whose freshly fitted isolation forest scores the
training point at −1/2 and predicts it normal. -/
def mlC8 : MlEnv :=
  { ifFit := fun _ => .ok (), ifPredictScore := fun _ _ => .ok (1, mkRat (-1) 2),
    lofEval := fun _ _ => .ok (false, 0) }

/-- C8 counterexample: on a cold-start isolation-forest call (no fitted
model) the code fits on the single current vector and passes the fitted
model's score through — here the reported score is 1/2, not the claimed 0
(the result is whatever `-score_samples` returns, which the code never
forces to zero). -/
theorem C8_cold_start_score_not_zero :
    (detect_anomaly_isolation_forest mlC8 rt0 none []).1.1 = false ∧
    (detect_anomaly_isolation_forest mlC8 rt0 none []).1.2 = 1/2 ∧
    (1/2 : ℚ) ≠ 0 := by
  refine ⟨by decide, ?_, by norm_num⟩
  have h : (detect_anomaly_isolation_forest mlC8 rt0 none []).1.2 = mkRat 1 2 := by
    decide
  rw [h, mkRat_div]
  norm_num

/-- C8 (amended): on cold start the LOF detector (fewer than
`n_neighbors + 1` stored vectors) reports non-anomalous with a zero score;
the isolation forest is lazily initialized and fitted on only the current
feature vector — if the fit raises, the call reports `(non-anomalous, 0)`
and the assigned-but-unfitted estimator persists, and otherwise the call
reports the fitted model's own prediction and score (not a forced zero). -/
theorem C8_cold_start_behavior :
    (∀ (env : MlEnv) (rt : PyRuntime) (hist : List FeatureVec)
       (ev : List (String × PyVal)), hist.length < 21 →
       detect_anomaly_lof env rt hist ev = (false, 0)) ∧
    (∀ (env : MlEnv) (rt : PyRuntime) (ev : List (String × PyVal)),
       env.ifFit [extract_features rt ev] = .error () →
       detect_anomaly_isolation_forest env rt none ev =
         ((false, 0), some .unfitted)) ∧
    (∀ (env : MlEnv) (rt : PyRuntime) (ev : List (String × PyVal)) (p : ℤ) (s : ℚ),
       env.ifFit [extract_features rt ev] = .ok () →
       env.ifPredictScore [extract_features rt ev] (extract_features rt ev) =
         .ok (p, s) →
       detect_anomaly_isolation_forest env rt none ev =
         ((decide (p = -1), -s), some (.fitted [extract_features rt ev]))) := by
  refine ⟨?_, ?_, ?_⟩
  · intro env rt hist ev h
    rw [detect_anomaly_lof, if_pos (by omega)]
  · intro env rt ev h
    rw [detect_anomaly_isolation_forest, h]
  · intro env rt ev p s hfit hps
    rw [detect_anomaly_isolation_forest, hfit]
    show (match ifPredictScoreM env (.fitted [extract_features rt ev])
        (extract_features rt ev) with
      | .error _ => ((false, 0), some (IFModel.fitted [extract_features rt ev]))
      | .ok ps => ((decide (ps.1 = -1), -ps.2),
          some (IFModel.fitted [extract_features rt ev]))) = _
    rw [ifPredictScoreM, hps]

theorem C8_witness :
    detect_anomaly_lof ml0 rt0 [] [] = (false, 0) ∧
    detect_anomaly_isolation_forest ml0 rt0 none [] =
      ((false, 0), some (.fitted [extract_features rt0 []])) := by
  constructor
  · exact C8_cold_start_behavior.1 ml0 rt0 [] [] (by decide)
  · have h := C8_cold_start_behavior.2.2 ml0 rt0 [] 1 0 rfl rfl
    simpa using h

/-- The loop score equals half the number of collected violations. -/
theorem complianceLoop_score (action : Option String) (details : EventDetails) :
    ∀ regs : List Regulation,
      (complianceLoop action details regs).2 =
        ((complianceLoop action details regs).1.length : ℚ) * (1/2)
  | [] => by simp [complianceLoop]
  | r :: rs => by
    have ih := complianceLoop_score action details rs
    have hhalf : (mkRat 1 2 : ℚ) = 1/2 := by
      rw [mkRat_div]
      norm_num
    cases action with
    | none => simpa [complianceLoop] using ih
    | some a =>
      by_cases ha : a ≠ ""
      · by_cases hv : (check_violation a r details).violation
        · simp only [complianceLoop, if_pos ha, if_pos hv, List.length_cons,
            qAdd_eq, hhalf, ih]
          push_cast
          ring
        · simpa [complianceLoop, if_pos ha, if_neg hv] using ih
      · simpa [complianceLoop, if_neg ha] using ih

/-- C9: `evaluate_event_compliance` reports compliant exactly when its
violation list is empty, its risk score is 0.5 per violation capped at 1,
and an unconfigured region yields zero applicable regulations and a
compliant-by-default result. -/
theorem C9_compliance_shape (user etype region : String) (details : EventDetails) :
    ((evaluate_event_compliance user etype region details).compliant = true ↔
      (evaluate_event_compliance user etype region details).violations = []) ∧
    (evaluate_event_compliance user etype region details).compliance_risk_score =
      min 1 (((evaluate_event_compliance user etype region details).violations.length : ℚ)
        * (1/2)) ∧
    (get_regulations_for_region region = [] →
      (evaluate_event_compliance user etype region details).compliant = true ∧
      (evaluate_event_compliance user etype region details).violations = [] ∧
      (evaluate_event_compliance user etype region details).applicable_regulations = [] ∧
      (evaluate_event_compliance user etype region details).compliance_risk_score = 0) := by
  refine ⟨?_, ?_, ?_⟩
  · rw [evaluate_event_compliance]
    simp [List.length_eq_zero]
  · rw [evaluate_event_compliance]
    simp only [qMin_eq, complianceLoop_score]
  · intro h
    rw [evaluate_event_compliance]
    simp [h, complianceLoop, qMin_eq]

theorem C9_witness :
    get_regulations_for_region "XX" = [] ∧
    (evaluate_event_compliance "u" "user_consent_change" "XX" {}).compliant = true ∧
    (evaluate_event_compliance "u" "user_consent_change" "XX" {}).violations = [] ∧
    (evaluate_event_compliance "u" "user_consent_change" "XX" {}).applicable_regulations
      = [] ∧
    (evaluate_event_compliance "u" "user_consent_change" "XX" {}).compliance_risk_score
      = 0 := by
  have h := (C9_compliance_shape "u" "user_consent_change" "XX" {}).2.2 (by decide)
  exact ⟨by decide, h.1, h.2.1, h.2.2.1, h.2.2.2⟩

/-- C10: `check_violation` with action `data_portability` (the action
`data_export` maps to) never reports a violation, for every regulation and
details dictionary; consequently a `data_export` event is reported compliant
with zero violations in every region. -/
theorem C10_data_export_compliant :
    (∀ (reg : Regulation) (details : EventDetails),
       (check_violation "data_portability" reg details).violation = false) ∧
    (∀ (user region : String) (details : EventDetails),
       (evaluate_event_compliance user "data_export" region details).compliant = true ∧
       (evaluate_event_compliance user "data_export" region details).violations = []) := by
  have h1 : ∀ (reg : Regulation) (details : EventDetails),
      (check_violation "data_portability" reg details).violation = false := by
    intro reg details
    simp [check_violation]
  refine ⟨h1, ?_⟩
  intro user region details
  have hmap : map_event_to_action "data_export" = some "data_portability" := by decide
  have hloop : ∀ regs : List Regulation,
      complianceLoop (some "data_portability") details regs = ([], 0) := by
    intro regs
    induction regs with
    | nil => rfl
    | cons r rs ih => simp [complianceLoop, ih, h1]
  rw [evaluate_event_compliance, hmap, hloop]
  simp

end OTT
